import Mathlib

/-!
Shallow embedding of `src/gplus_wallpaper_maker.py`, a script that downloads
the images of a Google+ photo album and writes two XML files: a GNOME
slideshow descriptor and a background-properties registration file.

XML trees built with `xml.etree.ElementTree` are modelled by the inductive
`Element` below (tag, optional text, list of children); the script uses no
attributes on the elements it creates, so none are modelled.  Network and
file-system side effects are modelled by returning the values the script
computes (URLs, paths, file contents); fallible steps return `Option`.
-/

/-- Model of an `xml.etree.ElementTree` element as built by the script:
a tag, optional `.text`, and a list of child elements. -/
inductive Element : Type where
  | mk : String → Option String → List Element → Element

/-- The tag of an element. -/
def Element.tag : Element → String
  | .mk t _ _ => t

/-- The `.text` of an element. -/
def Element.text : Element → Option String
  | .mk _ x _ => x

/-- The child elements of an element. -/
def Element.children : Element → List Element
  | .mk _ _ c => c

/-- First child with the given tag (how a consumer reads the documents). -/
def find_child (e : Element) (tag : String) : Option Element :=
  e.children.find? (fun c => c.tag == tag)

/-- Text of the first child with the given tag. -/
def child_text (e : Element) (tag : String) : Option String :=
  (find_child e tag).bind Element.text

/-- `_create_slideshow_xml_item_pair(image, next_image, duration_minutes)`
(lines 171-204): builds the `(static, transition)` element pair for one
slideshow step.  `transition_duration_seconds = 5`;
`static_duration_seconds = duration_minutes * 60 - transition_duration_seconds`;
durations are stored as their decimal string (`str(...)`). -/
def _create_slideshow_xml_item_pair (image next_image : String)
    (duration_minutes : Int) : Element × Element :=
  let transition_duration_seconds : Int := 5
  let static_duration_seconds : Int :=
    duration_minutes * 60 - transition_duration_seconds
  let static : Element := Element.mk "static" none
    [Element.mk "duration" (some (toString static_duration_seconds)) [],
     Element.mk "file" (some image) []]
  let transition : Element := Element.mk "transition" none
    [Element.mk "duration" (some (toString transition_duration_seconds)) [],
     Element.mk "from" (some image) [],
     Element.mk "to" (some next_image) []]
  (static, transition)

/-- The fixed `starttime` block of the slideshow XML (lines 145-157):
a fabricated past midnight timestamp, 2015-01-01 00:00:00. -/
def starttime_element : Element :=
  Element.mk "starttime" none
    [Element.mk "year" (some "2015") [],
     Element.mk "month" (some "01") [],
     Element.mk "day" (some "01") [],
     Element.mk "hour" (some "00") [],
     Element.mk "minute" (some "00") [],
     Element.mk "second" (some "00") []]

/-- The per-index `(static, transition)` pairs produced by the loop in
`_create_slideshow_xml` (lines 159-166): at index `i` the pair is built
from `images[i]` and `images[i+1]` (or `images[0]` when `i` is the last
index). -/
def slideshow_pairs (images : List String) (duration_minutes : Int) :
    List (Element × Element) :=
  (List.range images.length).map (fun index =>
    let image := images.getD index ""
    let next_image :=
      if index < images.length - 1 then images.getD (index + 1) ""
      else images.getD 0 ""
    _create_slideshow_xml_item_pair image next_image duration_minutes)

/-- `_create_slideshow_xml(images, duration_minutes)` (lines 132-168):
the `background` root holds the `starttime` block followed by the two
elements of each pair, in loop order (`background.extend(pair)`). -/
def _create_slideshow_xml (images : List String) (duration_minutes : Int) :
    Element :=
  Element.mk "background" none
    (starttime_element ::
      (slideshow_pairs images duration_minutes).flatMap (fun p => [p.1, p.2]))

/-- Python `s.rsplit(sep, 1)` on a character list: splits at the LAST
occurrence of `sep`, returning `some (before, after)`, or `none` when `sep`
does not occur.  A split found in the tail (closer to the end) wins. -/
def rsplitOne (sep : Char) : List Char → Option (List Char × List Char)
  | [] => none
  | c :: cs =>
    match rsplitOne sep cs with
    | some (a, b) => some (c :: a, b)
    | none => if c = sep then some ([], cs) else none

/-- Python `image_url.rsplit('/', 1)` (line 125): a two-element list when
the URL contains a `'/'`, otherwise the one-element list `[image_url]`. -/
def pyRsplitSlash (s : String) : List String :=
  match rsplitOne '/' s.data with
  | some (a, b) => [String.mk a, String.mk b]
  | none => [s]

/-- POSIX `os.path.join(a, b)` for two components: `b` if `b` is absolute,
else `a ++ b` if `a` is empty or ends with the separator, else
`a ++ "/" ++ b`. -/
def os_path_join (a b : String) : String :=
  if b.data.head? = some '/' then b
  else if a = "" ∨ a.data.getLast? = some '/' then a ++ b
  else a ++ "/" ++ b

/-- `_save_image(image_url, album_dir)` (lines 114-129).  The two-variable
unpacking `base_image_url, image_filename = image_url.rsplit('/', 1)`
raises `ValueError` when the split yields one element (no `'/'` in the
URL): modelled as `none`.  The network write `urllib.urlretrieve` is
modelled by returning the pair `(download_url, local_filepath)` the call
uses; the function's Python return value is the second component. -/
def _save_image (image_url album_dir : String) : Option (String × String) :=
  match pyRsplitSlash image_url with
  | [base_image_url, image_filename] =>
    let download_url := base_image_url ++ "/s4096-d/" ++ image_filename
    let local_filepath := os_path_join album_dir image_filename
    some (download_url, local_filepath)
  | _ => none

/-- `_print_download_progress(total, so_far)` (lines 106-111): computes the
fraction `so_far / float(total)` for the progress line.  Python 2 raises
`ZeroDivisionError` when `total = 0` (`float(0)` is `0.0`): modelled as
`none`.  The float quotient is modelled exactly as a rational, which is
faithful for the only property at stake (whether the division is defined). -/
def _print_download_progress (total so_far : ℕ) : Option ℚ :=
  if total = 0 then none else some ((so_far : ℚ) / (total : ℚ))

/-- The download loop of `main` (lines 76-79): for each URL, `_save_image`
then a progress print with `so_far = index + 1`; collects the returned
local file paths in order.  Any raised exception (modelled `none`)
propagates. -/
def download_loop (total : ℕ) (album_dir : String) :
    List String → ℕ → Option (List String)
  | [], _ => some []
  | url :: rest, index =>
    match _save_image url album_dir with
    | none => none
    | some (_, filepath) =>
      match _print_download_progress total (index + 1) with
      | none => none
      | some _ =>
        match download_loop total album_dir rest (index + 1) with
        | none => none
        | some files => some (filepath :: files)

/-- The download phase of `main` (lines 69-80): an initial
`_print_download_progress(len(media_content_elements), 0)` call, then the
loop over the image URLs.  Returns the list `images` of local paths. -/
def main_download_phase (image_urls : List String) (album_dir : String) :
    Option (List String) :=
  match _print_download_progress image_urls.length 0 with
  | none => none
  | some _ => download_loop image_urls.length album_dir image_urls 0

/-- In-place swap `x[i], x[j] = x[j], x[i]` on a list; identity when either
index is out of range (never the case in the shuffle below). -/
def list_swap {α : Type} (l : List α) (i j : ℕ) : List α :=
  match l.get? i, l.get? j with
  | some a, some b => (l.set i b).set j a
  | _, _ => l

/-- Modelled from the Python standard library: the Fisher-Yates loop of
`random.shuffle(x)` — `for i in reversed(xrange(1, len(x))): j =
int(random() * (i+1)); x[i], x[j] = x[j], x[i]`.  The random source is
abstracted as `rand : ℕ → ℕ`; `rand i % (i + 1)` lands in `[0, i]`,
exactly the range of `int(random() * (i+1))`.  `shuffle_aux rand i l`
runs the iterations `i, i-1, ..., 1`. -/
def shuffle_aux {α : Type} (rand : ℕ → ℕ) : ℕ → List α → List α
  | 0, l => l
  | i + 1, l => shuffle_aux rand i (list_swap l (i + 1) (rand (i + 1) % (i + 2)))

/-- `random.shuffle(images)` (line 83): Fisher-Yates from index
`len(images) - 1` down to `1`. -/
def random_shuffle {α : Type} (rand : ℕ → ℕ) (l : List α) : List α :=
  shuffle_aux rand (l.length - 1) l

/-- The scheduling phase of `main` (lines 82-86): shuffle the downloaded
image list when `--randomize` was given, then build the slideshow XML
from the (possibly shuffled) list. -/
def main_schedule_phase (randomize : Bool) (rand : ℕ → ℕ)
    (images : List String) (duration_minutes : Int) : Element :=
  let images' := if randomize then random_shuffle rand images else images
  _create_slideshow_xml images' duration_minutes

/-- `_BACKGROUNDS_DIR` (line 23): `os.path.expanduser` is modelled by
taking the home directory as a parameter. -/
def _BACKGROUNDS_DIR (home : String) : String :=
  home ++ "/.local/share/backgrounds/"

/-- `_BACKGROUND_PROPERTIES_DIR` (lines 21-22). -/
def _BACKGROUND_PROPERTIES_DIR (home : String) : String :=
  home ++ "/.local/share/gnome-background-properties/"

/-- `album_dir = os.path.join(_BACKGROUNDS_DIR, album_id)` (line 56). -/
def album_dir_path (home album_id : String) : String :=
  os_path_join (_BACKGROUNDS_DIR home) album_id

/-- `slideshow_xml_filepath = os.path.join(album_dir, 'slideshow.xml')`
(line 87). -/
def slideshow_xml_path (home album_id : String) : String :=
  os_path_join (album_dir_path home album_id) "slideshow.xml"

/-- `_create_background_properties_xml(album_name, slideshow_xml_filepath)`
(lines 207-236): the wallpaper registration document. -/
def _create_background_properties_xml
    (album_name slideshow_xml_filepath : String) : Element :=
  Element.mk "wallpapers" none
    [Element.mk "wallpaper" none
      [Element.mk "name" (some album_name) [],
       Element.mk "filename" (some slideshow_xml_filepath) [],
       Element.mk "options" (some "zoom") [],
       Element.mk "pcolor" (some "#111111") [],
       Element.mk "scolor" (some "#111111") [],
       Element.mk "shade_type" (some "solid") []]]

mutual

/-- Serialization of an element as `ElementTree.write` emits it for the
elements this script builds (no attributes, no tail text; character
escaping is irrelevant to the properties proved here). -/
def xml_serialize : Element → String
  | .mk tag txt children =>
    "<" ++ tag ++ ">" ++ txt.getD "" ++ xml_serialize_children children ++
      "</" ++ tag ++ ">"

/-- Serialization of a list of sibling elements, in order. -/
def xml_serialize_children : List Element → String
  | [] => ""
  | e :: es => xml_serialize e ++ xml_serialize_children es

end

/-- The bytes `main` writes to the registration file (lines 97-101): the
XML prolog and DOCTYPE string literal, then the serialized
background-properties tree. -/
def registration_file_content (album_name slideshow_xml_filepath : String) :
    String :=
  "<?xml version=\"1.0\" encoding=\"UTF-8\"?>"
    ++ "<!DOCTYPE wallpapers SYSTEM \"gnome-wp-list.dtd\">"
    ++ xml_serialize
        (_create_background_properties_xml album_name slideshow_xml_filepath)

/-! ## Helper lemmas -/

theorem slideshow_pairs_length (images : List String) (D : Int) :
    (slideshow_pairs images D).length = images.length := by
  simp [slideshow_pairs]

theorem flatMap_pair_length (l : List (Element × Element)) :
    (l.flatMap (fun p => [p.1, p.2])).length = 2 * l.length := by
  induction l with
  | nil => rfl
  | cons x xs ih => simp [List.flatMap_cons, ih]; omega

theorem list_getD_lt {α : Type} (l : List α) (d : α) (i : ℕ)
    (h : i < l.length) : l[i]? = some (l.getD i d) := by
  induction l generalizing i with
  | nil => simp at h
  | cons x xs ih =>
    cases i with
    | zero => simp [List.getD]
    | succ n => simpa [List.getD] using ih n (by simpa using h)

theorem rsplitOne_eq_none {sep : Char} {s : List Char} (h : sep ∉ s) :
    rsplitOne sep s = none := by
  induction s with
  | nil => rfl
  | cons c cs ih =>
    have hc : ¬c = sep := fun hc => h (hc ▸ List.mem_cons_self c cs)
    have hcs : sep ∉ cs := fun hm => h (List.mem_cons_of_mem c hm)
    simp [rsplitOne, ih hcs, hc]

theorem rsplitOne_eq_some {sep : Char} {s : List Char} (h : sep ∈ s) :
    ∃ a b, rsplitOne sep s = some (a, b) ∧ s = a ++ sep :: b ∧ sep ∉ b := by
  induction s with
  | nil => simp at h
  | cons c cs ih =>
    by_cases hcs : sep ∈ cs
    · obtain ⟨a, b, h1, h2, h3⟩ := ih hcs
      exact ⟨c :: a, b, by simp [rsplitOne, h1], by simp [h2], h3⟩
    · have hc : c = sep := by
        rcases List.mem_cons.mp h with h' | h'
        · exact h'.symm
        · exact absurd h' hcs
      exact ⟨[], cs, by simp [rsplitOne, rsplitOne_eq_none hcs, hc], by
        simp [hc], hcs⟩

theorem os_path_join_dir (home album_id : String)
    (hhead : album_id.data.head? ≠ some '/') :
    os_path_join (_BACKGROUNDS_DIR home) album_id
      = _BACKGROUNDS_DIR home ++ album_id := by
  have hlast : (_BACKGROUNDS_DIR home).data.getLast? = some '/' := by
    show (home ++ "/.local/share/backgrounds/").data.getLast? = some '/'
    rw [String.data_append, List.getLast?_append]
    rfl
  unfold os_path_join
  rw [if_neg hhead, if_pos (Or.inr hlast)]

theorem os_path_join_slideshow (a : String)
    (hne : a.data ≠ []) (hlast : a.data.getLast? ≠ some '/') :
    os_path_join a "slideshow.xml" = a ++ "/" ++ "slideshow.xml" := by
  unfold os_path_join
  rw [if_neg (by decide), if_neg]
  intro hor
  rcases hor with h | h
  · exact hne (by rw [h])
  · exact hlast h

theorem cons_set_perm {α : Type} {xs : List α} {m : ℕ} {b : α}
    (h : xs.get? m = some b) (c : α) :
    List.Perm (b :: xs.set m c) (c :: xs) := by
  induction xs generalizing m with
  | nil => simp at h
  | cons y t ih =>
    cases m with
    | zero =>
      have hb : y = b := by simpa using h
      subst hb
      show List.Perm (y :: c :: t) (c :: y :: t)
      exact List.Perm.swap c y t
    | succ n =>
      have h' : t.get? n = some b := by simpa using h
      show List.Perm (b :: y :: t.set n c) (c :: y :: t)
      exact ((List.Perm.swap y b (t.set n c)).trans
        ((ih h').cons y)).trans (List.Perm.swap c y t)

theorem set_set_perm {α : Type} :
    ∀ (l : List α) (i j : ℕ) (a b : α), l.get? i = some a →
      l.get? j = some b → List.Perm ((l.set i b).set j a) l := by
  intro l
  induction l with
  | nil => intro i j a b hi _; simp at hi
  | cons x xs ih =>
    intro i j a b hi hj
    cases i with
    | zero =>
      have hax : x = a := by simpa using hi
      subst hax
      cases j with
      | zero =>
        have hbx : x = b := by simpa using hj
        subst hbx
        exact List.Perm.refl _
      | succ m =>
        have hj' : xs.get? m = some b := by simpa using hj
        show List.Perm (b :: xs.set m x) (x :: xs)
        exact cons_set_perm hj' x
    | succ n =>
      have hi' : xs.get? n = some a := by simpa using hi
      cases j with
      | zero =>
        have hbx : x = b := by simpa using hj
        subst hbx
        show List.Perm (a :: xs.set n x) (x :: xs)
        exact cons_set_perm hi' x
      | succ m =>
        have hj' : xs.get? m = some b := by simpa using hj
        show List.Perm (x :: (xs.set n b).set m a) (x :: xs)
        exact (ih n m a b hi' hj').cons x

theorem list_swap_perm {α : Type} (l : List α) (i j : ℕ) :
    List.Perm (list_swap l i j) l := by
  cases hi : l.get? i with
  | none =>
    have he : list_swap l i j = l := by unfold list_swap; rw [hi]
    rw [he]
  | some a =>
    cases hj : l.get? j with
    | none =>
      have he : list_swap l i j = l := by unfold list_swap; rw [hi, hj]
      rw [he]
    | some b =>
      have he : list_swap l i j = (l.set i b).set j a := by
        unfold list_swap; rw [hi, hj]
      rw [he]
      exact set_set_perm l i j a b hi hj

theorem shuffle_aux_perm {α : Type} (rand : ℕ → ℕ) (i : ℕ) (l : List α) :
    List.Perm (shuffle_aux rand i l) l := by
  induction i generalizing l with
  | zero => exact List.Perm.refl l
  | succ n ih =>
    exact (ih _).trans (list_swap_perm l (n + 1) (rand (n + 1) % (n + 2)))

theorem random_shuffle_perm {α : Type} (rand : ℕ → ℕ) (l : List α) :
    List.Perm (random_shuffle rand l) l :=
  shuffle_aux_perm rand (l.length - 1) l

/-! ## Claim theorems -/

/-- C7: in every pair built by `_create_slideshow_xml_item_pair`, the
transition duration is the fixed constant 5 seconds regardless of
configuration, the static duration is `duration_minutes * 60 - 5`
seconds, and with `duration_minutes = 30` these are exactly 1795 and 5
seconds. -/
theorem C7_fixed_durations (image next_image : String) (D : Int) :
    child_text (_create_slideshow_xml_item_pair image next_image D).2
        "duration" = some (toString (5 : Int)) ∧
    child_text (_create_slideshow_xml_item_pair image next_image D).1
        "duration" = some (toString (D * 60 - 5)) ∧
    child_text (_create_slideshow_xml_item_pair image next_image 30).1
        "duration" = some "1795" ∧
    child_text (_create_slideshow_xml_item_pair image next_image 30).2
        "duration" = some "5" :=
  ⟨rfl, rfl, rfl, rfl⟩

/-- C9: in every pair built by `_create_slideshow_xml_item_pair`, the
static element's `file` text, the transition element's `from` text, and
the `image` argument all coincide. -/
theorem C9_static_file_eq_transition_from (image next_image : String)
    (D : Int) :
    child_text (_create_slideshow_xml_item_pair image next_image D).1 "file"
        = some image ∧
    child_text (_create_slideshow_xml_item_pair image next_image D).2 "from"
        = some image ∧
    child_text (_create_slideshow_xml_item_pair image next_image D).1 "file"
        = child_text (_create_slideshow_xml_item_pair image next_image D).2
            "from" :=
  ⟨rfl, rfl, rfl⟩

/-- C3: contrary to the claim, `duration_minutes = 0` raises no
configuration error anywhere in the schedule builder: the pair is built
with static duration `0 * 60 - 5 = -5` and the string `"-5"` is silently
emitted as the `duration` text of the `static` element of the schedule. -/
theorem C3_negative_duration_emitted :
    child_text (_create_slideshow_xml_item_pair "a.jpg" "a.jpg" 0).1
        "duration" = some "-5" ∧
    ∃ p, (slideshow_pairs ["a.jpg"] 0)[0]? = some p ∧
      child_text p.1 "duration" = some "-5" :=
  ⟨rfl, ⟨_, rfl, rfl⟩⟩

/-- C1: for `N ≥ 1` images and `duration_minutes` `D` with `D * 60 > 5`,
the schedule holds exactly `N` `(static, transition)` pairs (so the
`background` root has `1 + 2 * N` children beyond none), and in each pair
the static and transition durations add up to `D * 60` seconds. -/
theorem C1_pairs_count_and_cycle_time (images : List String) (D : Int)
    (hN : 1 ≤ images.length) (hD : 5 < D * 60) :
    (slideshow_pairs images D).length = images.length ∧
    (_create_slideshow_xml images D).children.length
      = 1 + 2 * images.length ∧
    ∀ p ∈ slideshow_pairs images D, ∃ s t : Int,
      child_text p.1 "duration" = some (toString s) ∧
      child_text p.2 "duration" = some (toString t) ∧
      s + t = D * 60 := by
  refine ⟨slideshow_pairs_length images D, ?_, ?_⟩
  · show (starttime_element ::
      (slideshow_pairs images D).flatMap (fun p => [p.1, p.2])).length = _
    rw [List.length_cons, flatMap_pair_length, slideshow_pairs_length]
    omega
  · intro p hp
    simp only [slideshow_pairs, List.mem_map] at hp
    obtain ⟨i, hi, rfl⟩ := hp
    exact ⟨D * 60 - 5, 5, rfl, rfl, by ring⟩

/-- Witness for C1 at `images = ["a.jpg", "b.jpg"]`, `D = 1`. -/
theorem C1_pairs_count_and_cycle_time_witness :
    (1 ≤ (["a.jpg", "b.jpg"] : List String).length ∧ (5 : Int) < 1 * 60) ∧
    ((slideshow_pairs ["a.jpg", "b.jpg"] 1).length
        = (["a.jpg", "b.jpg"] : List String).length ∧
      (_create_slideshow_xml ["a.jpg", "b.jpg"] 1).children.length
        = 1 + 2 * (["a.jpg", "b.jpg"] : List String).length ∧
      ∀ p ∈ slideshow_pairs ["a.jpg", "b.jpg"] 1, ∃ s t : Int,
        child_text p.1 "duration" = some (toString s) ∧
        child_text p.2 "duration" = some (toString t) ∧
        s + t = 1 * 60) :=
  ⟨⟨by decide, by decide⟩,
    C1_pairs_count_and_cycle_time ["a.jpg", "b.jpg"] 1 (by decide) (by decide)⟩

/-- C2: the schedule is the cycle `i ↦ (i + 1) % N` on positions: the pair
at position `i` has a transition whose `from` text is the image at
position `i` and whose `to` text is the image at position
`(i + 1) % N`; the pair list covers the `N` positions exactly once. -/
theorem C2_single_cycle (images : List String) (D : Int) (i : ℕ)
    (hi : i < images.length) :
    (slideshow_pairs images D).length = images.length ∧
    ∃ p, (slideshow_pairs images D)[i]? = some p ∧
      child_text p.2 "from" = images[i]? ∧
      child_text p.2 "to" = images[(i + 1) % images.length]? := by
  have hget : (slideshow_pairs images D)[i]? =
      some (_create_slideshow_xml_item_pair (images.getD i "")
        (if i < images.length - 1 then images.getD (i + 1) ""
         else images.getD 0 "") D) := by
    simp [slideshow_pairs, List.getElem?_map, List.getElem?_range, hi]
  refine ⟨slideshow_pairs_length images D, _, hget, ?_, ?_⟩
  · rw [list_getD_lt images "" i hi]
    by_cases h : i < images.length - 1 <;> simp [h] <;> rfl
  · by_cases h : i < images.length - 1
    · have h1 : i + 1 < images.length := by omega
      rw [Nat.mod_eq_of_lt h1, list_getD_lt images "" (i + 1) h1]
      simp [h]
      rfl
    · have hN : 0 < images.length := by omega
      have h0 : (i + 1) % images.length = 0 := by
        have : i + 1 = images.length := by omega
        rw [this, Nat.mod_self]
      rw [h0, list_getD_lt images "" 0 hN]
      simp [h]
      rfl

/-- Witness for C2 at `images = ["a.jpg", "b.jpg"]`, `D = 1`, `i = 1`:
the last position transitions back to position `0`. -/
theorem C2_single_cycle_witness :
    (1 < (["a.jpg", "b.jpg"] : List String).length) ∧
    ((slideshow_pairs ["a.jpg", "b.jpg"] 1).length
        = (["a.jpg", "b.jpg"] : List String).length ∧
      ∃ p, (slideshow_pairs ["a.jpg", "b.jpg"] 1)[1]? = some p ∧
        child_text p.2 "from" = (["a.jpg", "b.jpg"] : List String)[1]? ∧
        child_text p.2 "to" =
          (["a.jpg", "b.jpg"] : List String)[(1 + 1) % 2]?) :=
  ⟨by decide, C2_single_cycle ["a.jpg", "b.jpg"] 1 1 (by decide)⟩

/-- C4: for every source URL containing a `'/'`, `_save_image` splits it
at the LAST `'/'` into `(baseUrl, filename)` (`filename` has no further
`'/'`), downloads from `baseUrl ++ "/s4096-d/" ++ filename`, and stores
under `filename` joined to the album directory; in particular
`.../album123/photo.jpg` is fetched from
`.../album123/s4096-d/photo.jpg`. -/
theorem C4_url_rewrite (url dir : String) (h : '/' ∈ url.data) :
    (∃ a b : List Char,
      url.data = a ++ '/' :: b ∧ '/' ∉ b ∧
      pyRsplitSlash url = [String.mk a, String.mk b] ∧
      _save_image url dir =
        some (String.mk a ++ "/s4096-d/" ++ String.mk b,
          os_path_join dir (String.mk b))) ∧
    _save_image "http://h/album123/photo.jpg" "/tmp" =
      some ("http://h/album123/s4096-d/photo.jpg", "/tmp/photo.jpg") := by
  refine ⟨?_, by decide⟩
  obtain ⟨a, b, h1, h2, h3⟩ := rsplitOne_eq_some h
  have hsplit : pyRsplitSlash url = [String.mk a, String.mk b] := by
    simp [pyRsplitSlash, h1]
  exact ⟨a, b, h2, h3, hsplit, by simp [_save_image, hsplit]⟩

/-- Witness for C4 at `url = "http://h/album123/photo.jpg"`,
`dir = "/tmp"`. -/
theorem C4_url_rewrite_witness :
    ('/' ∈ ("http://h/album123/photo.jpg" : String).data) ∧
    ((∃ a b : List Char,
      ("http://h/album123/photo.jpg" : String).data = a ++ '/' :: b ∧
      '/' ∉ b ∧
      pyRsplitSlash "http://h/album123/photo.jpg"
        = [String.mk a, String.mk b] ∧
      _save_image "http://h/album123/photo.jpg" "/tmp" =
        some (String.mk a ++ "/s4096-d/" ++ String.mk b,
          os_path_join "/tmp" (String.mk b))) ∧
    _save_image "http://h/album123/photo.jpg" "/tmp" =
      some ("http://h/album123/s4096-d/photo.jpg", "/tmp/photo.jpg")) :=
  ⟨by decide, C4_url_rewrite "http://h/album123/photo.jpg" "/tmp" (by decide)⟩

/-- C10: `_save_image` presupposes a `'/'` in the URL: on a URL without
one, `rsplit('/', 1)` yields the one-element list `[url]` and the
two-variable unpacking raises (`none` in this embedding). -/
theorem C10_slash_precondition (url dir : String) (h : '/' ∉ url.data) :
    pyRsplitSlash url = [url] ∧ (pyRsplitSlash url).length = 1 ∧
    _save_image url dir = none := by
  have h1 : rsplitOne '/' url.data = none := rsplitOne_eq_none h
  have h2 : pyRsplitSlash url = [url] := by simp [pyRsplitSlash, h1]
  exact ⟨h2, by rw [h2]; rfl, by simp [_save_image, h2]⟩

/-- Witness for C10 at `url = "photo.jpg"`. -/
theorem C10_slash_precondition_witness :
    ('/' ∉ ("photo.jpg" : String).data) ∧
    (pyRsplitSlash "photo.jpg" = ["photo.jpg"] ∧
      (pyRsplitSlash "photo.jpg").length = 1 ∧
      _save_image "photo.jpg" "/tmp" = none) :=
  ⟨by decide, C10_slash_precondition "photo.jpg" "/tmp" (by decide)⟩

/-- C6: the registration document holds one `wallpaper` entry whose
`name` is the album name, whose `filename` is the slideshow path
`main` builds (`<backgrounds_root>/<album_id>/slideshow.xml` for a
well-formed album id), and whose rendering hints are the constants
`zoom`, `#111111`, `#111111`, `solid` regardless of input; the file
content starts with the XML prolog plus DOCTYPE declaration. -/
theorem C6_registration_document (album_name home album_id : String) :
    ∃ w, find_child (_create_background_properties_xml album_name
          (slideshow_xml_path home album_id)) "wallpaper" = some w ∧
      child_text w "name" = some album_name ∧
      child_text w "filename" = some (slideshow_xml_path home album_id) ∧
      child_text w "options" = some "zoom" ∧
      child_text w "pcolor" = some "#111111" ∧
      child_text w "scolor" = some "#111111" ∧
      child_text w "shade_type" = some "solid" ∧
      (∃ rest : String,
        registration_file_content album_name
            (slideshow_xml_path home album_id)
          = "<?xml version=\"1.0\" encoding=\"UTF-8\"?>"
            ++ "<!DOCTYPE wallpapers SYSTEM \"gnome-wp-list.dtd\">"
            ++ rest) ∧
      (album_id.data ≠ [] → album_id.data.head? ≠ some '/' →
        album_id.data.getLast? ≠ some '/' →
        child_text w "filename" =
          some (_BACKGROUNDS_DIR home ++ album_id ++ "/"
            ++ "slideshow.xml")) := by
  refine ⟨_, rfl, rfl, rfl, rfl, rfl, rfl, rfl, ⟨_, rfl⟩, ?_⟩
  intro hne hhead hlast
  show some (slideshow_xml_path home album_id) = _
  have h1 : os_path_join (_BACKGROUNDS_DIR home) album_id
      = _BACKGROUNDS_DIR home ++ album_id := os_path_join_dir home album_id hhead
  have hne' : (_BACKGROUNDS_DIR home ++ album_id).data ≠ [] := by
    rw [String.data_append]
    intro hc
    exact hne (List.append_eq_nil.mp hc).2
  have hlast' : (_BACKGROUNDS_DIR home ++ album_id).data.getLast? ≠ some '/' := by
    rw [String.data_append, List.getLast?_append]
    cases hg : album_id.data.getLast? with
    | none => exact absurd (List.getLast?_eq_none_iff.mp hg) hne
    | some c => simpa [hg] using hlast
  rw [slideshow_xml_path, album_dir_path, h1,
    os_path_join_slideshow _ hne' hlast']

/-- Witness for C6 at concrete album name, home and album id. -/
theorem C6_registration_document_witness :
    ∃ w, find_child (_create_background_properties_xml "Trip 2015"
          (slideshow_xml_path "/home/u" "abc123")) "wallpaper" = some w ∧
      child_text w "name" = some "Trip 2015" ∧
      child_text w "filename" = some (slideshow_xml_path "/home/u" "abc123") ∧
      child_text w "options" = some "zoom" ∧
      child_text w "pcolor" = some "#111111" ∧
      child_text w "scolor" = some "#111111" ∧
      child_text w "shade_type" = some "solid" ∧
      (∃ rest : String,
        registration_file_content "Trip 2015"
            (slideshow_xml_path "/home/u" "abc123")
          = "<?xml version=\"1.0\" encoding=\"UTF-8\"?>"
            ++ "<!DOCTYPE wallpapers SYSTEM \"gnome-wp-list.dtd\">"
            ++ rest) ∧
      (("abc123" : String).data ≠ [] →
        ("abc123" : String).data.head? ≠ some '/' →
        ("abc123" : String).data.getLast? ≠ some '/' →
        child_text w "filename" =
          some (_BACKGROUNDS_DIR "/home/u" ++ "abc123" ++ "/"
            ++ "slideshow.xml")) :=
  C6_registration_document "Trip 2015" "/home/u" "abc123"

/-- C8: with `--randomize`, the list used to build the schedule is a
permutation of the downloaded list — same length and same multiset of
paths (equal counts for every path) — and the shuffle is applied before
`_create_slideshow_xml`, whatever the random source produced. -/
theorem C8_randomize_is_permutation (rand : ℕ → ℕ) (images : List String)
    (D : Int) :
    ∃ images' : List String, List.Perm images' images ∧
      images'.length = images.length ∧
      (∀ p : String, images'.count p = images.count p) ∧
      main_schedule_phase true rand images D
        = _create_slideshow_xml images' D :=
  ⟨random_shuffle rand images, random_shuffle_perm rand images,
    (random_shuffle_perm rand images).length_eq,
    fun p => (random_shuffle_perm rand images).count_eq p, rfl⟩

/-- C5: contrary to the claim, a feed with album identity but zero image
entries does not complete as a valid-but-empty run: the very first
progress call divides by `float(0)` and the run dies with an
undistinguished `ZeroDivisionError` (modelled as `none`), while a
one-image feed proceeds normally. -/
theorem C5_zero_images_divide_by_zero :
    _print_download_progress 0 0 = none ∧
    main_download_phase [] "/album" = none ∧
    main_download_phase ["http://h/p.jpg"] "/album" = some ["/album/p.jpg"] :=
  ⟨rfl, rfl, by decide⟩
